import Mathlib

/-!
Verification of the AgriGuard telemetry dashboard.

The development shallowly embeds the three source files of the repository:
* the Web-Serial dashboard component (file with `readSerialData`,
  `connectArduino`, `disconnectArduino`, `detectBoardType`),
* the map-enabled dashboard component (file with `checkSerialConnection`
  and the path / planting-log / marker stores),
* the Node serial relay (file with `handleArduinoData`).

JavaScript strings are modelled as `List Char`; the regular-expression
matches used by the source are modelled by explicit leftmost scanners that
are exact for the patterns involved (each character class excludes the
delimiter that follows it, so greedy matching never backtracks).  Numeric
text captured from a line is kept as its raw character run where the source
only stores or displays it; `parseInt` on a digit run is modelled by
`digitsToNat`.  IEEE floating point is not modelled: no claim settled here
depends on float arithmetic, only on which fields are written and on the
size and order of the history stores.
-/

/-! ## Token scanning (the regex layer of `readSerialData` and
`checkSerialConnection`) -/

/-- Character class `\d` of the source regexes. -/
def isDig (c : Char) : Bool := c.isDigit

/-- Character class `[\d.-]` used by `TEMP:([\d.-]+)`. -/
def tempClass (c : Char) : Bool := c.isDigit || c == '.' || c == '-'

/-- Character class `[-\d.]` used by the two GPS coordinate groups. -/
def gpsNumClass (c : Char) : Bool := c == '-' || c.isDigit || c == '.'

/-- Character class `[\d.]` used by `PLANT:([\d.]+)`. -/
def depthClass (c : Char) : Bool := c.isDigit || c == '.'

/-- One anchored attempt of `tag` followed by one-or-more `cls` characters,
returning the greedy capture.  Models the body of a JS regex
`/TAG:(cls+)/` tried at a fixed position. -/
def matchTagAt (tag : List Char) (cls : Char → Bool) (s : List Char) :
    Option (List Char) :=
  if tag.isPrefixOf s then
    let run := (s.drop tag.length).takeWhile cls
    if run.isEmpty then none else some run
  else none

/-- Leftmost match of `/TAG:(cls+)/` over the whole line, as
`String.prototype.match` returns it. -/
def scanTag (tag : List Char) (cls : Char → Bool) : List Char → Option (List Char)
  | [] => matchTagAt tag cls []
  | c :: t =>
    match matchTagAt tag cls (c :: t) with
    | some r => some r
    | none => scanTag tag cls t

/-- `parseInt` on a run of decimal digits. -/
def digitsToNat (ds : List Char) : Nat :=
  ds.foldl (fun a c => 10 * a + (c.toNat - 48)) 0

/-- `data.match(/BAT:(\d+)/)`, capture only. -/
def batMatch (data : List Char) : Option (List Char) :=
  scanTag "BAT:".toList isDig data

/-- `data.match(/TEMP:([\d.-]+)/)`, capture only. -/
def tempMatch (data : List Char) : Option (List Char) :=
  scanTag "TEMP:".toList tempClass data

/-- `data.match(/HUM:(\d+)/)`, capture only. -/
def humMatch (data : List Char) : Option (List Char) :=
  scanTag "HUM:".toList isDig data

/-- `data.match(/SOIL:(\d+)/)`, capture only. -/
def soilMatch (data : List Char) : Option (List Char) :=
  scanTag "SOIL:".toList isDig data

/-! ## The Web-Serial dashboard component (`readSerialData` and friends) -/

/-- Sensor liveness as displayed by the dashboard. -/
inductive SensorStatus where
  | online
  | offline
deriving DecidableEq, Repr

/-- The `SensorData` state of the Web-Serial dashboard.  The component
stores the captured token text directly (string fields), with the literal
`--` as the unknown sentinel. -/
structure SensorData where
  temperature : String
  humidity : String
  soilMoisture : String
  lightIntensity : String
  soilTemp : String
  airQuality : String
  phLevel : String
  obstacleDistance : String
  dht22Status : SensorStatus
  soilSensorStatus : SensorStatus
  lightSensorStatus : SensorStatus
  phSensorStatus : SensorStatus
  obstacleSensorStatus : SensorStatus
deriving DecidableEq, Repr

/-- The `ArduinoStatus` state of the Web-Serial dashboard.
`battery` is the only field `readSerialData` writes (via `parseInt`). -/
structure ArduinoStatus where
  board : String
  connection : String
  battery : Nat
  detected : Bool
  signalStrength : Nat
  uptime : String
  mcuTemp : Nat
  charging : Bool
  voltage : Nat
  runtime : String
deriving DecidableEq, Repr

/-- The pair of state slices that one decoded line can touch. -/
structure Dash where
  arduino : ArduinoStatus
  sensors : SensorData
deriving DecidableEq, Repr

/-- Initial `ArduinoStatus` value of the component. -/
def initialArduinoStatus : ArduinoStatus :=
  { board := "Unknown Board", connection := "DISCONNECTED", battery := 0,
    detected := false, signalStrength := 0, uptime := "0h 0m", mcuTemp := 0,
    charging := false, voltage := 0, runtime := "0h" }

/-- Initial `SensorData` value of the component; also the value restored by
`disconnectArduino`. -/
def offlineSensorData : SensorData :=
  { temperature := "--", humidity := "--", soilMoisture := "--",
    lightIntensity := "--", soilTemp := "--", airQuality := "--",
    phLevel := "--", obstacleDistance := "--",
    dht22Status := .offline, soilSensorStatus := .offline,
    lightSensorStatus := .offline, phSensorStatus := .offline,
    obstacleSensorStatus := .offline }

/-- Initial full dashboard state. -/
def initialDash : Dash :=
  { arduino := initialArduinoStatus, sensors := offlineSensorData }

/-- One iteration of the `readSerialData` while-loop body on a received
chunk `data`: match `BAT`, `TEMP`, `HUM`, `SOIL` tokens, apply
`setArduinoStatus` for a battery match and one `setSensorData` merge for
the sensor matches (which also forces `dht22Status` and
`soilSensorStatus` to Online).  The returned flag records whether any
state-setting call fired for this line. -/
def processLine (st : Dash) (data : List Char) : Dash × Bool :=
  let st1 :=
    match batMatch data with
    | some ds => { st with arduino := { st.arduino with battery := digitsToNat ds } }
    | none => st
  let hasSensorUpdate :=
    (tempMatch data).isSome || (humMatch data).isSome || (soilMatch data).isSome
  let st2 :=
    if hasSensorUpdate then
      { st1 with sensors :=
        { st1.sensors with
          temperature :=
            match tempMatch data with
            | some v => String.mk v
            | none => st1.sensors.temperature
          humidity :=
            match humMatch data with
            | some v => String.mk v
            | none => st1.sensors.humidity
          soilMoisture :=
            match soilMatch data with
            | some v => String.mk v
            | none => st1.sensors.soilMoisture
          dht22Status := .online
          soilSensorStatus := .online } }
    else st1
  (st2, (batMatch data).isSome || hasSensorUpdate)

example : processLine initialDash "BAT:87 TEMP:24.5".toList
    = ({ arduino := { initialArduinoStatus with
           battery := 87 },
         sensors := { offlineSensorData with
           temperature := "24.5"
           dht22Status := .online
           soilSensorStatus := .online } },
       true) := by decide

example : processLine initialDash "???".toList = (initialDash, false) := by decide

/-! ## GPS and PLANT scanners of `checkSerialConnection` -/

/-- Planting outcome alternation `(OK|Shallow|Deep|Failed)` of the PLANT
regex. -/
inductive POutcome where
  | ok
  | shallow
  | deep
  | failed
deriving DecidableEq, Repr

/-- Raw captures of `/GPS:([-\d.]+),([-\d.]+),([01]),(\d+)/`:
latitude text, longitude text, fix flag character, satellite count. -/
structure GpsCapture where
  latRaw : List Char
  lngRaw : List Char
  fixedFlag : Char
  satellites : Nat
deriving DecidableEq, Repr

/-- Anchored attempt of the GPS regex at one position.  Each numeric class
excludes the comma that terminates it, so greedy matching is exact. -/
def matchGpsAt (s : List Char) : Option GpsCapture :=
  if "GPS:".toList.isPrefixOf s then
    let r0 := s.drop 4
    let g1 := r0.takeWhile gpsNumClass
    if g1.isEmpty then none else
    match r0.drop g1.length with
    | ',' :: r2 =>
      let g2 := r2.takeWhile gpsNumClass
      if g2.isEmpty then none else
      match r2.drop g2.length with
      | ',' :: c :: ',' :: r5 =>
        if c == '0' || c == '1' then
          let g4 := r5.takeWhile isDig
          if g4.isEmpty then none
          else some ⟨g1, g2, c, digitsToNat g4⟩
        else none
      | _ => none
    | _ => none
  else none

/-- Leftmost match of the GPS regex over the whole line. -/
def scanGps : List Char → Option GpsCapture
  | [] => matchGpsAt []
  | c :: t =>
    match matchGpsAt (c :: t) with
    | some g => some g
    | none => scanGps t

/-- Raw captures of `/PLANT:([\d.]+),(OK|Shallow|Deep|Failed)/`. -/
structure PlantCapture where
  depthRaw : List Char
  outcome : POutcome
deriving DecidableEq, Repr

/-- The outcome alternation, tried left to right as the regex engine
does. -/
def matchOutcome (s : List Char) : Option POutcome :=
  if "OK".toList.isPrefixOf s then some .ok
  else if "Shallow".toList.isPrefixOf s then some .shallow
  else if "Deep".toList.isPrefixOf s then some .deep
  else if "Failed".toList.isPrefixOf s then some .failed
  else none

/-- Anchored attempt of the PLANT regex at one position. -/
def matchPlantAt (s : List Char) : Option PlantCapture :=
  if "PLANT:".toList.isPrefixOf s then
    let r0 := s.drop 6
    let g1 := r0.takeWhile depthClass
    if g1.isEmpty then none else
    match r0.drop g1.length with
    | ',' :: r2 =>
      match matchOutcome r2 with
      | some o => some ⟨g1, o⟩
      | none => none
    | _ => none
  else none

/-- Leftmost match of the PLANT regex over the whole line. -/
def scanPlant : List Char → Option PlantCapture
  | [] => matchPlantAt []
  | c :: t =>
    match matchPlantAt (c :: t) with
    | some p => some p
    | none => scanPlant t

example : scanGps "x GPS:14.6091,121.0223,1,7 y".toList
    = some ⟨"14.6091".toList, "121.0223".toList, '1', 7⟩ := by decide

example : scanPlant "PLANT:12.0,Shallow".toList
    = some ⟨"12.0".toList, .shallow⟩ := by decide

example : scanPlant "PLANT:12.0,BAD".toList = none := by decide

/-! ## The map dashboard component (`checkSerialConnection`) -/

/-- A `{lat, lng}` literal.  The source converts the captured text with
`parseFloat` before storing it; the conversion to IEEE doubles is not
modelled, so positions carry the captured numeral text.  None of the
settled claims depends on the numeric value of a coordinate. -/
structure GeoPoint where
  lat : String
  lng : String
deriving DecidableEq, Repr

/-- A Google-Maps planting marker: its position and whether it is still
attached to the map layer (`setMap(null)` detaches it). -/
structure MapMarker where
  position : GeoPoint
  onMap : Bool
deriving DecidableEq, Repr

/-- The `gpsData` state slice. -/
structure GpsInfo where
  isFixed : Bool
  satellites : Nat
  accuracy : Nat
deriving DecidableEq, Repr

/-- One `PlantingLog` entry of the map dashboard. -/
structure PlantingRecord where
  id : String
  timestamp : String
  depth : String
  outcome : POutcome
  coordinates : GeoPoint
deriving DecidableEq, Repr

/-- The path-store append of `checkSerialConnection`:
`setRobotPath(prev => [...prev.slice(-100), newPosition])`.
`prev.slice(-100)` is the last 100 elements of `prev` (all of them when
`prev` is shorter). -/
def pushPath (prev : List GeoPoint) (p : GeoPoint) : List GeoPoint :=
  prev.drop (prev.length - 100) ++ [p]

/-- The planting-log append of the map dashboard:
`setPlantingLogs(prev => [newLog, ...prev.slice(0, 49)])`. -/
def pushPlantingLog (prev : List PlantingRecord) (e : PlantingRecord) :
    List PlantingRecord :=
  e :: prev.take 49

/-- Result of a marker-store append: the new store contents plus the list
of markers whose `setMap(null)` release was performed during the append. -/
structure MarkerPush where
  store : List MapMarker
  released : List MapMarker
deriving DecidableEq, Repr

/-- The marker-store append: `plantingMarkers.current.push(marker)`, then
if the length exceeds 100, `plantingMarkers.current[0].setMap(null)`
followed by `shift()` — the oldest marker is detached from the map before
its reference is dropped. -/
def pushMarker (markers : List MapMarker) (pos : GeoPoint) : MarkerPush :=
  let ms := markers ++ [{ position := pos, onMap := true }]
  if 100 < ms.length then
    { store := ms.tail,
      released := (ms.take 1).map fun m => { m with onMap := false } }
  else
    { store := ms, released := [] }

/-- The state slices of the map dashboard that one decoded line can touch.
`hasMap` models whether `mapInstance.current` is non-null (the Google Maps
layer loads asynchronously and can be absent).  `releasedMarkers` is an
instrumentation log accumulating every `setMap(null)` call performed by
marker eviction, so that release of evicted presentation handles is
observable in the model. -/
structure MapDash where
  batteryLevel : Nat
  temperature : String
  humidity : String
  soilMoisture : String
  lastUpdate : Option String
  robotPosition : GeoPoint
  robotPath : List GeoPoint
  gps : GpsInfo
  plantingLogs : List PlantingRecord
  isPlanting : Bool
  markers : List MapMarker
  hasMap : Bool
  releasedMarkers : List MapMarker
deriving DecidableEq, Repr

/-- The `batteryMatch` block of `checkSerialConnection`. -/
def batteryStage (st : MapDash) (data : List Char) : MapDash :=
  match batMatch data with
  | some ds => { st with batteryLevel := digitsToNat ds }
  | none => st

/-- The `sensorUpdates` block of `checkSerialConnection`: present tokens
are merged, and a non-empty update also stamps `lastUpdate`. -/
def sensorStage (st : MapDash) (data : List Char) (nowText : String) : MapDash :=
  if (tempMatch data).isSome || (humMatch data).isSome || (soilMatch data).isSome then
    { st with
      temperature :=
        match tempMatch data with
        | some v => String.mk v
        | none => st.temperature
      humidity :=
        match humMatch data with
        | some v => String.mk v
        | none => st.humidity
      soilMoisture :=
        match soilMatch data with
        | some v => String.mk v
        | none => st.soilMoisture
      lastUpdate := some nowText }
  else st

/-- The `gpsMatch` block of `checkSerialConnection`: position, path append
and fix data. -/
def gpsStage (st : MapDash) (data : List Char) : MapDash :=
  match scanGps data with
  | some g =>
    { st with
      robotPosition := { lat := String.mk g.latRaw, lng := String.mk g.lngRaw }
      robotPath := pushPath st.robotPath { lat := String.mk g.latRaw, lng := String.mk g.lngRaw }
      gps := { isFixed := g.fixedFlag == '1', satellites := g.satellites, accuracy := 0 } }
  | none => st

/-- The `plantMatch` block of `checkSerialConnection`.  `origPos` is the
`robotPosition` React state captured by the render closure — the value
from before this invocation — which the source uses both for the log entry
coordinates and for the new marker position. -/
def plantStage (origPos : GeoPoint) (st : MapDash) (data : List Char)
    (nowText idText : String) : MapDash :=
  match scanPlant data with
  | some p =>
    let newLog : PlantingRecord :=
      { id := idText, timestamp := nowText,
        depth := String.mk p.depthRaw ++ "mm",
        outcome := p.outcome, coordinates := origPos }
    let s4 := { st with
      plantingLogs := pushPlantingLog st.plantingLogs newLog
      isPlanting := true }
    if s4.hasMap && p.outcome == POutcome.ok then
      let push := pushMarker s4.markers origPos
      { s4 with
        markers := push.store
        releasedMarkers := s4.releasedMarkers ++ push.released }
    else s4
  | none => { st with isPlanting := false }

/-- One invocation of `checkSerialConnection` on a received chunk `data`:
the four blocks in source order.  `nowText` and `idText` model the
wall-clock timestamp and `Date.now()` identifier taken by the source at
this invocation. -/
def checkLine (st : MapDash) (data : List Char) (nowText idText : String) :
    MapDash :=
  plantStage st.robotPosition
    (gpsStage (sensorStage (batteryStage st data) data nowText) data)
    data nowText idText

/-! ## The Node serial relay (`handleArduinoData`) -/

/-- JavaScript `a || b` on an optional numeric field: an absent field or a
falsy (zero) value yields the default.  Numbers are modelled as rationals;
the source uses IEEE doubles, but only presence and zero tests matter for
the settled claims. -/
def jsOr (v : Option Rat) (d : Rat) : Rat :=
  match v with
  | none => d
  | some x => if x = 0 then d else x

/-- One entry of the relay planting log.  `depth` carries the interpolated
display text built by the source. -/
structure ServerLogEntry where
  time : String
  depth : String
  outcome : String
  timestamp : Nat
deriving DecidableEq, Repr

/-- The relay planting-log append: `unshift` the new entry, then
`slice(0, 50)` whenever the length exceeds 50. -/
def pushServerLog (prev : List ServerLogEntry) (e : ServerLogEntry) :
    List ServerLogEntry :=
  let l := e :: prev
  if 50 < l.length then l.take 50 else l

/-- The relay `currentData` store. -/
structure CurrentData where
  battery : Rat
  temperature : Rat
  humidity : Rat
  isOnline : Bool
  lastSeen : Option String
  plantingLogs : List ServerLogEntry
deriving DecidableEq, Repr

/-- Initial relay store. -/
def initialCurrentData : CurrentData :=
  { battery := 0, temperature := 206 / 10, humidity := 66,
    isOnline := false, lastSeen := none, plantingLogs := [] }

/-- A structured envelope after JSON decoding, keyed on the `type`
discriminator.  Payload fields are optional: JSON objects may omit them.
`plantingEvent` carries the depth text as it will be interpolated. -/
inductive ArduinoMsg where
  | systemStatus (battery temperature humidity : Option Rat)
  | plantingEvent (depthText outcomeText : String)
  | logMsg (message : String)
deriving DecidableEq, Repr

/-- The `handleArduinoData` switch of the relay.  `nowText` and `nowMillis`
model `new Date().toLocaleTimeString()` and `Date.now()` at this call. -/
def handleArduinoData (cur : CurrentData) (msg : ArduinoMsg)
    (nowText : String) (nowMillis : Nat) : CurrentData :=
  match msg with
  | .systemStatus b t h =>
    { cur with
      battery := jsOr b 0
      temperature := jsOr t (206 / 10)
      humidity := jsOr h 66
      lastSeen := some nowText
      isOnline := true }
  | .plantingEvent depthText outcomeText =>
    let e : ServerLogEntry :=
      { time := nowText, depth := depthText ++ "cm",
        outcome := outcomeText, timestamp := nowMillis }
    { cur with plantingLogs := pushServerLog cur.plantingLogs e }
  | .logMsg _ => cur

/-! ## Link teardown (`disconnectArduino` of the Web-Serial dashboard) -/

/-- Which awaited release steps of the teardown raise, injected as inputs
of the model.  `releaseLockFails` and `streamCloseFails` are swallowed by
their own `try`/`catch` blocks with no state effect; they are kept as
inputs to state that fact. -/
structure TeardownFaults where
  cancelFails : Bool
  releaseLockFails : Bool
  streamCloseFails : Bool
  portCloseFails : Bool
deriving DecidableEq, Repr

/-- The connection-owning state of the Web-Serial dashboard component:
the `serialPort` React state, the `readerRef` ref, and the two state
slices reset on disconnect. -/
structure LinkState where
  serialPort : Option Unit
  readerRef : Option Unit
  dash : Dash
deriving DecidableEq, Repr

/-- `ArduinoStatus` value written by a successful `disconnectArduino`. -/
def disconnectedArduinoStatus : ArduinoStatus := initialArduinoStatus

/-- `disconnectArduino`: inside an outer `try`, (1) an inner
`try`/`catch(e){}` awaits `reader.cancel()` — if that throws, the inner
catch swallows it and the `releaseLock`/ref-clearing lines are skipped;
`releaseLock` has its own empty catch, after which the ref is cleared
regardless; (2) a `try`/`catch{}` awaits the piped stream closure, with no
state effect either way; (3) `serialPort.close()` is awaited with no
individual protection — if it throws, the outer catch only logs, so the
port handle, the CONNECTED status and the sensor data are all left as they
were.  Only when `close()` succeeds are the port cleared and the status
and sensor slices reset. -/
def disconnectArduino (st : LinkState) (f : TeardownFaults) : LinkState :=
  match st.serialPort with
  | none => st
  | some _ =>
    let st1 :=
      match st.readerRef with
      | some _ =>
        if f.cancelFails then st
        else { st with readerRef := none }
      | none => st
    if f.portCloseFails then st1
    else
      { st1 with
        serialPort := none
        dash := { arduino := disconnectedArduinoStatus, sensors := offlineSensorData } }

/-! ## Connection guard and read-loop exclusivity (`connectArduino` /
`readSerialData`) -/

/-- The state relevant to reader exclusivity: whether `serialPort` is set,
the `isReading` flag, and a count of read loops currently consuming the
transport (instrumentation; the source has no such counter, the count
tracks how many `readSerialData` invocations have passed their guard and
not yet run their `finally`). -/
structure LoopState where
  port : Bool
  reading : Bool
  readers : Nat
deriving DecidableEq, Repr

/-- Initial component state: no port, no reader. -/
def initialLoopState : LoopState := { port := false, reading := false, readers := 0 }

/-- The guard of `readSerialData`: `if (!port || isReading) return;` then
`setIsReading(true)` and the loop starts consuming the transport. -/
def readStart (s : LoopState) : LoopState :=
  if s.port && !s.reading then
    { s with reading := true, readers := s.readers + 1 }
  else s

/-- The `finally` block of `readSerialData`: the loop stops consuming the
transport and `setIsReading(false)` runs. -/
def readFinish (s : LoopState) : LoopState :=
  { s with reading := false, readers := s.readers - 1 }

/-- `connectArduino` at the exclusivity level: `if (serialPort)` report
the info notification `Already Connected` and return without touching
anything; otherwise, when the port opens, store it and invoke
`readSerialData`.  `openOk` models whether request/open succeeded; on
failure only an error notification is produced. -/
def connectArduino (s : LoopState) (openOk : Bool) : LoopState × Option String :=
  if s.port then (s, some "Already Connected")
  else if openOk then (readStart { s with port := true }, none)
  else (s, some "Connection Failed")

/-- Externally triggered events of the exclusivity model. -/
inductive LinkEvent where
  | connect (openOk : Bool)
  | readFinished
  | disconnect
deriving DecidableEq, Repr

/-- Event application.  `disconnect` clears the port; the read loop it
cancels terminates through a separate `readFinished` event when its
`finally` runs. -/
def stepLink (s : LoopState) : LinkEvent → LoopState
  | .connect openOk => (connectArduino s openOk).1
  | .readFinished => readFinish s
  | .disconnect => { s with port := false }

/-- A run of the component from its initial state. -/
def runLink (evs : List LinkEvent) : LoopState :=
  evs.foldl stepLink initialLoopState

/-! ## Board classification (`detectBoardType`) -/

/-- Substring containment on character lists, as
`String.prototype.includes` computes it. -/
def listHasSub (h n : List Char) : Bool :=
  if n.isPrefixOf h then true
  else
    match h with
    | [] => false
    | _ :: t => listHasSub t n

/-- The product-name keyword chain of `detectBoardType`, applied to the
lowercased name: first keyword found wins. -/
def boardFromName (name : List Char) : Option String :=
  if listHasSub name "uno".toList then some "arduino:avr:uno"
  else if listHasSub name "nano".toList then some "arduino:avr:nano"
  else if listHasSub name "mega".toList then some "arduino:avr:mega"
  else if listHasSub name "leonardo".toList then some "arduino:avr:leonardo"
  else if listHasSub name "micro".toList then some "arduino:avr:micro"
  else if listHasSub name "esp32".toList then some "esp32"
  else if listHasSub name "esp8266".toList then some "esp8266"
  else none

/-- The static `usbProductId` table (`idMap` in one variant, the `switch`
in the other; both bind the same pairs), with `unknown` as the default. -/
def boardFromId (pid : Nat) : String :=
  if pid = 0x0043 then "arduino:avr:uno"
  else if pid = 0x0036 then "arduino:avr:leonardo"
  else if pid = 0x8036 then "arduino:avr:leonardo"
  else if pid = 0x0037 then "arduino:avr:micro"
  else if pid = 0x8037 then "arduino:avr:micro"
  else if pid = 0x0042 then "arduino:avr:mega"
  else if pid = 0x0010 then "arduino:avr:mega"
  else "unknown"

/-- The fixed board enumeration (the keys of `ARDUINO_BOARDS`). -/
def boardKeys : List String :=
  ["arduino:avr:uno", "arduino:avr:nano", "arduino:avr:mega",
   "arduino:avr:leonardo", "arduino:avr:micro", "esp32", "esp8266",
   "unknown"]

/-- `detectBoardType(usbProductId, productName)`: `if (productName)` is
false for an absent name and for the empty string; a truthy name is
lowercased and scanned for the keywords, and on no keyword hit control
falls through to the product-id table. -/
def detectBoardType (pid : Nat) (productName : Option String) : String :=
  match productName with
  | some s =>
    if s.isEmpty then boardFromId pid
    else
      match boardFromName (s.toList.map Char.toLower) with
      | some b => b
      | none => boardFromId pid
  | none => boardFromId pid

example : detectBoardType 0 (some "USB Arduino UNO R3") = "arduino:avr:uno" := by decide

example : detectBoardType 0x0042 (some "generic bridge") = "arduino:avr:mega" := by decide

example : detectBoardType 0x9999 none = "unknown" := by decide

/-! ## Store lemmas -/

/-- Folding the path append from the empty store keeps exactly the last
`101` appended points, in arrival order: each append first trims the
previous contents to their last 100 points and then adds the new point,
so the store saturates at 101, not 100. -/
theorem pathFold_eq (pts : List GeoPoint) :
    pts.foldl pushPath [] = pts.drop (pts.length - 101) := by
  induction pts using List.reverseRecOn with
  | nil => rfl
  | append_singleton xs x ih =>
    rw [List.foldl_append, List.foldl_cons, List.foldl_nil, ih]
    unfold pushPath
    rw [List.drop_drop, List.length_drop,
      List.drop_append_of_le_length
        (by simp only [List.length_append, List.length_cons, List.length_nil]; omega)]
    have harg : xs.length - 101 + (xs.length - (xs.length - 101) - 100)
        = (xs ++ [x]).length - 101 := by
      simp only [List.length_append, List.length_cons, List.length_nil]; omega
    rw [harg]

/-- Folding the map-dashboard planting-log append from the empty store
keeps exactly the last 50 appended entries, newest first. -/
theorem plantingLogFold_eq (es : List PlantingRecord) :
    es.foldl pushPlantingLog [] = es.reverse.take 50 := by
  induction es using List.reverseRecOn with
  | nil => rfl
  | append_singleton xs x ih =>
    rw [List.foldl_append, List.foldl_cons, List.foldl_nil, ih]
    unfold pushPlantingLog
    rw [List.reverse_append]
    simp [List.take_take]

/-- Folding the relay planting-log append from the empty store keeps
exactly the last 50 appended entries, newest first. -/
theorem serverLogFold_eq (es : List ServerLogEntry) :
    es.foldl pushServerLog [] = es.reverse.take 50 := by
  induction es using List.reverseRecOn with
  | nil => rfl
  | append_singleton xs x ih =>
    rw [List.foldl_append, List.foldl_cons, List.foldl_nil, ih]
    unfold pushServerLog
    rw [List.reverse_append]
    by_cases h : 50 ≤ xs.length
    · have hlen : 50 < (x :: xs.reverse.take 50).length := by simp; omega
      simp only [if_pos hlen]
      simp [List.take_take]
    · have hlen : ¬ 50 < (x :: xs.reverse.take 50).length := by simp; omega
      simp only [if_neg hlen]
      have h1 : xs.reverse.take 50 = xs.reverse := by
        apply List.take_of_length_le; simp; omega
      have h2 : (x :: xs.reverse).take 50 = x :: xs.reverse := by
        apply List.take_of_length_le; simp; omega
      simp [h1, h2]

/-- A sample decoded position used by concrete store runs. -/
def samplePoint : GeoPoint := { lat := "14.6091", lng := "121.0223" }

/-! ## Claim C1 -/

/-- Claim C1 as stated is false: appending 101 decoded positions to the
empty path store leaves 101 points, exceeding the stated capacity of
100 — `prev.slice(-100)` keeps 100 old points and the append adds one
more. -/
theorem C1_counterexample :
    ((List.replicate 101 samplePoint).foldl pushPath []).length = 101 ∧
    ¬ ((List.replicate 101 samplePoint).foldl pushPath []).length ≤ 100 := by
  rw [pathFold_eq]
  simp

/-- Claim C1 (amended): after any sequence of appended `PositionFix`
points the path store holds exactly the last `min n 101` points appended,
in original arrival order with the oldest discarded first; the store
therefore never exceeds 101 points (not 100), and from the 101st append
onward it holds exactly the last 101 points. -/
theorem C1_path_store (pts : List GeoPoint) :
    pts.foldl pushPath [] = pts.drop (pts.length - 101) ∧
    (pts.foldl pushPath []).length = min pts.length 101 := by
  refine ⟨pathFold_eq pts, ?_⟩
  rw [pathFold_eq, List.length_drop]
  omega

/-! ## Claim C6 -/

/-- Claim C6: both planting-log stores (the map dashboard store with
`[newLog, ...prev.slice(0, 49)]` and the relay store with `unshift` plus
`slice(0, 50)`) hold, after any sequence of appends, exactly the last 50
appended entries in newest-first order: the most recent entry is at the
front, the length never exceeds 50, and the oldest entry is the one
evicted when an append would exceed the capacity. -/
theorem C6_planting_log_stores :
    (∀ es : List PlantingRecord,
      es.foldl pushPlantingLog [] = es.reverse.take 50 ∧
      (es.foldl pushPlantingLog []).length ≤ 50) ∧
    (∀ es : List ServerLogEntry,
      es.foldl pushServerLog [] = es.reverse.take 50 ∧
      (es.foldl pushServerLog []).length ≤ 50) := by
  constructor
  · intro es
    refine ⟨plantingLogFold_eq es, ?_⟩
    rw [plantingLogFold_eq]
    simp
  · intro es
    refine ⟨serverLogFold_eq es, ?_⟩
    rw [serverLogFold_eq]
    simp

/-! ## Claims about `processLine` field effects -/

/-- Claim C4 as stated is false: for the multi-tag line
`BAT:87 TEMP:24.5`, the reconciled state does not leave every field not
named by a token unchanged — the soil-moisture sensor status, a field
named by no token of the line (`SOIL` and `HUM` are absent), flips from
Offline to Online because any sensor-token match forces both
`dht22Status` and `soilSensorStatus` to Online. -/
theorem C4_counterexample :
    (processLine initialDash "BAT:87 TEMP:24.5".toList).1.sensors.soilSensorStatus
      = SensorStatus.online ∧
    initialDash.sensors.soilSensorStatus = SensorStatus.offline ∧
    soilMatch "BAT:87 TEMP:24.5".toList = none ∧
    humMatch "BAT:87 TEMP:24.5".toList = none := by
  decide

/-- Claim C4 (amended): a line carrying several valid tag tokens updates,
in a single pass, exactly the fields named by its tokens — battery from
`BAT`, temperature from `TEMP`, humidity from `HUM`, soil moisture from
`SOIL` — and, whenever at least one of `TEMP`/`HUM`/`SOIL` matched, also
sets the DHT22 and soil sensor statuses to Online; every other field of
the device state retains its previous value. -/
theorem C4_multi_tag_merge (st : Dash) (data : List Char) :
    (processLine st data).1.arduino.battery
      = (match batMatch data with
         | some ds => digitsToNat ds
         | none => st.arduino.battery) ∧
    (processLine st data).1.sensors.temperature
      = (match tempMatch data with
         | some v => String.mk v
         | none => st.sensors.temperature) ∧
    (processLine st data).1.sensors.humidity
      = (match humMatch data with
         | some v => String.mk v
         | none => st.sensors.humidity) ∧
    (processLine st data).1.sensors.soilMoisture
      = (match soilMatch data with
         | some v => String.mk v
         | none => st.sensors.soilMoisture) ∧
    (processLine st data).1.sensors.dht22Status
      = (if (tempMatch data).isSome || (humMatch data).isSome || (soilMatch data).isSome
         then SensorStatus.online else st.sensors.dht22Status) ∧
    (processLine st data).1.sensors.soilSensorStatus
      = (if (tempMatch data).isSome || (humMatch data).isSome || (soilMatch data).isSome
         then SensorStatus.online else st.sensors.soilSensorStatus) ∧
    (processLine st data).1.sensors.lightIntensity = st.sensors.lightIntensity ∧
    (processLine st data).1.sensors.soilTemp = st.sensors.soilTemp ∧
    (processLine st data).1.sensors.airQuality = st.sensors.airQuality ∧
    (processLine st data).1.sensors.phLevel = st.sensors.phLevel ∧
    (processLine st data).1.sensors.obstacleDistance = st.sensors.obstacleDistance ∧
    (processLine st data).1.sensors.lightSensorStatus = st.sensors.lightSensorStatus ∧
    (processLine st data).1.sensors.phSensorStatus = st.sensors.phSensorStatus ∧
    (processLine st data).1.sensors.obstacleSensorStatus = st.sensors.obstacleSensorStatus ∧
    (processLine st data).1.arduino.board = st.arduino.board ∧
    (processLine st data).1.arduino.connection = st.arduino.connection ∧
    (processLine st data).1.arduino.detected = st.arduino.detected ∧
    (processLine st data).1.arduino.signalStrength = st.arduino.signalStrength ∧
    (processLine st data).1.arduino.uptime = st.arduino.uptime ∧
    (processLine st data).1.arduino.mcuTemp = st.arduino.mcuTemp ∧
    (processLine st data).1.arduino.charging = st.arduino.charging ∧
    (processLine st data).1.arduino.voltage = st.arduino.voltage ∧
    (processLine st data).1.arduino.runtime = st.arduino.runtime ∧
    (processLine st data).2
      = ((batMatch data).isSome || (tempMatch data).isSome
          || (humMatch data).isSome || (soilMatch data).isSome) := by
  rcases hb : batMatch data with _ | bv <;>
    rcases ht : tempMatch data with _ | tv <;>
      rcases hh : humMatch data with _ | hv <;>
        rcases hs : soilMatch data with _ | sv <;>
          simp [processLine, hb, ht, hh, hs]

/-- Claim C5: a line in which no tag token matches (the structured
envelope does not apply to this decoder) changes nothing: the device state
is returned exactly as it was and no state-setting call fires, so no
notification is emitted; `processLine` is total, so decoding such a line
never throws and never halts the read loop. -/
theorem C5_garbage_ignored (st : Dash) (data : List Char)
    (hb : batMatch data = none) (ht : tempMatch data = none)
    (hh : humMatch data = none) (hs : soilMatch data = none) :
    processLine st data = (st, false) := by
  simp [processLine, hb, ht, hh, hs]

/-- Witness for C5 at the garbage line of the claim: `???` matches no
token, leaves any state unchanged and fires no notification. -/
theorem C5_garbage_ignored_witness :
    processLine initialDash "???".toList = (initialDash, false) :=
  C5_garbage_ignored initialDash "???".toList
    (by decide) (by decide) (by decide) (by decide)

/-- Claim C10: whenever at least one of the `TEMP`, `HUM`, `SOIL` tokens
matches a line, the reconciler sets both the DHT22 status and the
soil-moisture sensor status to Online — even when the matching token does
not belong to that sensor. -/
theorem C10_status_coupling (st : Dash) (data : List Char)
    (h : ((tempMatch data).isSome || (humMatch data).isSome
          || (soilMatch data).isSome) = true) :
    (processLine st data).1.sensors.dht22Status = SensorStatus.online ∧
    (processLine st data).1.sensors.soilSensorStatus = SensorStatus.online := by
  rcases hb : batMatch data with _ | bv <;>
    simp [processLine, hb, h]

/-- Witness for C10 at the line of the claim: `TEMP:24.5` carries no soil
reading (`SOIL` does not match) yet the soil sensor status comes out
Online. -/
theorem C10_status_coupling_witness :
    ((processLine initialDash "TEMP:24.5".toList).1.sensors.dht22Status
        = SensorStatus.online ∧
      (processLine initialDash "TEMP:24.5".toList).1.sensors.soilSensorStatus
        = SensorStatus.online) ∧
    soilMatch "TEMP:24.5".toList = none :=
  ⟨C10_status_coupling initialDash "TEMP:24.5".toList (by decide), by decide⟩

/-! ## Claim C3 -/

/-- A relay store that has already seen real readings. -/
def seededCurrentData : CurrentData :=
  { battery := 87, temperature := 25, humidity := 50,
    isOnline := true, lastSeen := some "11:59:58", plantingLogs := [] }

/-- Claim C3 as stated is false: in the relay, a `system_status` envelope
that omits every payload field does not leave the omitted fields alone —
`data.battery || 0`, `data.temperature || 20.6` and `data.humidity || 66`
overwrite the previously decoded values 87, 25 and 50 with the constants
0, 20.6 and 66. -/
theorem C3_counterexample :
    (handleArduinoData seededCurrentData
        (ArduinoMsg.systemStatus none none none) "12:00:00" 0).battery = 0 ∧
    (handleArduinoData seededCurrentData
        (ArduinoMsg.systemStatus none none none) "12:00:00" 0).temperature = 206 / 10 ∧
    (handleArduinoData seededCurrentData
        (ArduinoMsg.systemStatus none none none) "12:00:00" 0).humidity = 66 ∧
    seededCurrentData.battery = 87 ∧
    seededCurrentData.temperature = 25 ∧
    seededCurrentData.humidity = 50 := by
  refine ⟨?_, ?_, ?_, rfl, rfl, rfl⟩ <;> rfl

/-- Claim C3 (amended): the tag-token decoder writes only the fields whose
token is present in the line — an absent token leaves its field exactly as
it was, never defaulted — but the relay envelope path does not: a
`system_status` record always rewrites battery, temperature and humidity,
replacing an absent (or zero-valued, since JavaScript `||` tests
falsiness) field with the constants 0, 20.6 and 66 respectively. -/
theorem C3_no_silent_defaults :
    (∀ (st : Dash) (data : List Char),
      (batMatch data = none →
        (processLine st data).1.arduino.battery = st.arduino.battery) ∧
      (tempMatch data = none →
        (processLine st data).1.sensors.temperature = st.sensors.temperature) ∧
      (humMatch data = none →
        (processLine st data).1.sensors.humidity = st.sensors.humidity) ∧
      (soilMatch data = none →
        (processLine st data).1.sensors.soilMoisture = st.sensors.soilMoisture)) ∧
    (∀ (cur : CurrentData) (b t h : Option Rat) (nowText : String) (ms : Nat),
      (b = none →
        (handleArduinoData cur (.systemStatus b t h) nowText ms).battery = 0) ∧
      (t = none →
        (handleArduinoData cur (.systemStatus b t h) nowText ms).temperature = 206 / 10) ∧
      (h = none →
        (handleArduinoData cur (.systemStatus b t h) nowText ms).humidity = 66) ∧
      (∀ x : Rat, t = some x → x ≠ 0 →
        (handleArduinoData cur (.systemStatus b t h) nowText ms).temperature = x) ∧
      (t = some 0 →
        (handleArduinoData cur (.systemStatus b t h) nowText ms).temperature = 206 / 10)) := by
  constructor
  · intro st data
    refine ⟨?_, ?_, ?_, ?_⟩ <;> intro hnone <;>
      rcases hb : batMatch data with _ | bv <;>
        rcases ht : tempMatch data with _ | tv <;>
          rcases hh : humMatch data with _ | hv <;>
            rcases hs : soilMatch data with _ | sv <;>
              simp_all [processLine]
  · intro cur b t h nowText ms
    refine ⟨?_, ?_, ?_, ?_, ?_⟩
    · intro hb; simp [handleArduinoData, hb, jsOr]
    · intro ht; simp [handleArduinoData, ht, jsOr]
    · intro hh; simp [handleArduinoData, hh, jsOr]
    · intro x ht hx; simp [handleArduinoData, ht, jsOr, hx]
    · intro ht; simp [handleArduinoData, ht, jsOr]

/-- Witness for C3 (amended): a line without a `TEMP` token leaves the
dashboard temperature untouched, and a `system_status` envelope without a
battery field stores battery 0. -/
theorem C3_no_silent_defaults_witness :
    (processLine initialDash "BAT:87".toList).1.sensors.temperature
      = initialDash.sensors.temperature ∧
    (handleArduinoData seededCurrentData
        (ArduinoMsg.systemStatus none (some 25) (some 50)) "12:00:00" 0).battery = 0 :=
  ⟨(C3_no_silent_defaults.1 initialDash "BAT:87".toList).2.1 (by decide),
   (C3_no_silent_defaults.2 seededCurrentData none (some 25) (some 50) "12:00:00" 0).1 rfl⟩

/-! ## Claim C2 -/

/-- The component state right after a successful `connectArduino`, with an
active reader. -/
def connectedLinkState : LinkState :=
  { serialPort := some ()
    readerRef := some ()
    dash :=
      { arduino := { initialArduinoStatus with
          connection := "CONNECTED"
          battery := 100
          detected := true
          signalStrength := 100
          charging := true
          voltage := 5
          runtime := "Unlimited (USB)" }
        sensors := offlineSensorData } }

/-- Fault profile in which only the final `serialPort.close()` raises. -/
def closeRaises : TeardownFaults :=
  { cancelFails := false, releaseLockFails := false,
    streamCloseFails := false, portCloseFails := true }

/-- Claim C2 as stated is false: with a connection open, a `disconnect()`
in which the transport `close()` step raises does not leave the status
Disconnected — the outer catch only logs, so the port handle stays set and
the connection status remains CONNECTED. -/
theorem C2_counterexample :
    connectedLinkState.serialPort.isSome = true ∧
    (disconnectArduino connectedLinkState closeRaises).dash.arduino.connection
      = "CONNECTED" ∧
    (disconnectArduino connectedLinkState closeRaises).dash.arduino.connection
      ≠ "DISCONNECTED" ∧
    (disconnectArduino connectedLinkState closeRaises).serialPort = some () := by
  refine ⟨rfl, rfl, ?_, rfl⟩
  decide

/-- Claim C2 (amended): with a connection open, `disconnect()` always
completes, and failures of the reader-cancel, lock-release and
stream-close steps are each caught and swallowed, so whenever the final
transport `close()` succeeds the teardown clears the port and leaves the
status Disconnected regardless of those earlier failures; but when
`close()` itself raises, the error is only logged and the port handle,
connection status and sensor data are left exactly as they were — the
transition to Disconnected is not unconditional. -/
theorem C2_disconnect_teardown (st : LinkState) (f : TeardownFaults)
    (hopen : st.serialPort.isSome = true) :
    (f.portCloseFails = false →
      (disconnectArduino st f).dash.arduino.connection = "DISCONNECTED" ∧
      (disconnectArduino st f).serialPort = none ∧
      (disconnectArduino st f).dash.sensors = offlineSensorData) ∧
    (f.portCloseFails = true →
      (disconnectArduino st f).serialPort = st.serialPort ∧
      (disconnectArduino st f).dash = st.dash) := by
  rcases st with ⟨port, reader, dash⟩
  rcases port with _ | u
  · simp at hopen
  · rcases reader with _ | r <;>
      rcases f with ⟨fc, fr, fs, fp⟩ <;>
        rcases fp with _ | _ <;>
          rcases fc with _ | _ <;>
            simp [disconnectArduino, disconnectedArduinoStatus,
              initialArduinoStatus]

/-- Fault profile in which every release step before the transport close
raises. -/
def earlyStepsRaise : TeardownFaults :=
  { cancelFails := true, releaseLockFails := true,
    streamCloseFails := true, portCloseFails := false }

/-- Witness for C2 (amended): even with the cancel, lock-release and
stream-close steps all raising, a teardown whose transport close succeeds
ends Disconnected with the port cleared. -/
theorem C2_disconnect_teardown_witness :
    (disconnectArduino connectedLinkState earlyStepsRaise).dash.arduino.connection
      = "DISCONNECTED" ∧
    (disconnectArduino connectedLinkState earlyStepsRaise).serialPort = none ∧
    (disconnectArduino connectedLinkState earlyStepsRaise).dash.sensors
      = offlineSensorData :=
  (C2_disconnect_teardown connectedLinkState earlyStepsRaise rfl).1 rfl

/-! ## Claim C7 -/

/-- The battery, sensor and GPS blocks of `checkSerialConnection` never
touch the marker store, the release log, the planting log or the map
handle. -/
theorem preStages_fields (st : MapDash) (data : List Char) (nowText : String) :
    (gpsStage (sensorStage (batteryStage st data) data nowText) data).markers
      = st.markers ∧
    (gpsStage (sensorStage (batteryStage st data) data nowText) data).releasedMarkers
      = st.releasedMarkers ∧
    (gpsStage (sensorStage (batteryStage st data) data nowText) data).plantingLogs
      = st.plantingLogs ∧
    (gpsStage (sensorStage (batteryStage st data) data nowText) data).hasMap
      = st.hasMap := by
  unfold gpsStage sensorStage batteryStage
  split <;> split <;> split <;> simp

/-- A map-dashboard state in which the Google Maps layer has not (yet)
been initialized: `mapInstance.current` is null. -/
def noMapDash : MapDash :=
  { batteryLevel := 100, temperature := "--", humidity := "--",
    soilMoisture := "--", lastUpdate := none, robotPosition := samplePoint,
    robotPath := [], gps := { isFixed := false, satellites := 0, accuracy := 0 },
    plantingLogs := [], isPlanting := false, markers := [], hasMap := false,
    releasedMarkers := [] }

/-- Claim C7 as stated is false: an `OK` planting event decoded while the
map layer is not initialized creates no marker — marker creation is gated
on `mapInstance.current && status === OK`, not on the outcome alone, and
the map loads asynchronously, so this state is reachable.  The log entry
is still appended. -/
theorem C7_counterexample :
    scanPlant "PLANT:12.0,OK".toList
      = some { depthRaw := "12.0".toList, outcome := POutcome.ok } ∧
    (checkLine noMapDash "PLANT:12.0,OK".toList "12:00:00" "100").markers = [] ∧
    (checkLine noMapDash "PLANT:12.0,OK".toList "12:00:00" "100").plantingLogs.length
      = 1 := by
  refine ⟨by decide, by decide, by decide⟩

/-- Claim C7 (amended): while the map layer is initialized, a decoded
planting event creates a map marker if and only if its outcome is `OK`
(Shallow, Deep and Failed events append a log entry but no marker, and a
line with no PLANT token never touches the marker store); the marker store
never exceeds 100 markers, and an append from a full store detaches the
oldest marker from the map layer (`setMap(null)`) before dropping its
reference.  When the map layer is not initialized, even an `OK` event
creates no marker. -/
theorem C7_marker_store :
    (∀ (st : MapDash) (data : List Char) (nowText idText : String)
        (p : PlantCapture),
      st.hasMap = true → scanPlant data = some p → p.outcome = POutcome.ok →
        (checkLine st data nowText idText).markers
          = (pushMarker st.markers st.robotPosition).store ∧
        (checkLine st data nowText idText).releasedMarkers
          = st.releasedMarkers ++ (pushMarker st.markers st.robotPosition).released) ∧
    (∀ (st : MapDash) (data : List Char) (nowText idText : String)
        (p : PlantCapture),
      scanPlant data = some p → p.outcome ≠ POutcome.ok →
        (checkLine st data nowText idText).markers = st.markers ∧
        (checkLine st data nowText idText).releasedMarkers = st.releasedMarkers ∧
        (checkLine st data nowText idText).plantingLogs
          = pushPlantingLog st.plantingLogs
              { id := idText, timestamp := nowText,
                depth := String.mk p.depthRaw ++ "mm",
                outcome := p.outcome, coordinates := st.robotPosition }) ∧
    (∀ (st : MapDash) (data : List Char) (nowText idText : String),
      scanPlant data = none →
        (checkLine st data nowText idText).markers = st.markers ∧
        (checkLine st data nowText idText).releasedMarkers = st.releasedMarkers) ∧
    (∀ (ms : List MapMarker) (pos : GeoPoint),
      (ms.length ≤ 100 → (pushMarker ms pos).store.length ≤ 100) ∧
      (ms.length < 100 →
        pushMarker ms pos
          = { store := ms ++ [{ position := pos, onMap := true }], released := [] }) ∧
      (ms.length = 100 →
        (pushMarker ms pos).store = ms.tail ++ [{ position := pos, onMap := true }] ∧
        (pushMarker ms pos).released
          = (ms.take 1).map fun m => { m with onMap := false })) := by
  refine ⟨?_, ?_, ?_, ?_⟩
  · intro st data nowText idText p hmap hplant houtcome
    obtain ⟨hm, hr, hl, hh⟩ := preStages_fields st data nowText
    simp only [checkLine, plantStage, hplant]
    simp [houtcome, hh, hmap, hm, hr]
  · intro st data nowText idText p hplant houtcome
    obtain ⟨hm, hr, hl, hh⟩ := preStages_fields st data nowText
    simp only [checkLine, plantStage, hplant]
    have : (p.outcome == POutcome.ok) = false := by
      rcases p with ⟨d, o⟩; rcases o <;> simp_all
    simp [this, hm, hr, hl]
  · intro st data nowText idText hplant
    obtain ⟨hm, hr, hl, hh⟩ := preStages_fields st data nowText
    simp only [checkLine, plantStage, hplant]
    simp [hm, hr]
  · intro ms pos
    refine ⟨?_, ?_, ?_⟩
    · intro hle
      unfold pushMarker
      simp only [List.length_append, List.length_cons, List.length_nil, Nat.zero_add]
      split_ifs with h
      · simp [List.length_tail]
        omega
      · simp
        omega
    · intro hlt
      unfold pushMarker
      simp only [List.length_append, List.length_cons, List.length_nil, Nat.zero_add]
      rw [if_neg (by omega)]
    · intro heq
      rcases ms with _ | ⟨m0, rest⟩
      · simp at heq
      · unfold pushMarker
        simp only [List.length_append, List.length_cons, List.length_nil,
          Nat.zero_add, List.cons_append]
        rw [if_pos (by simp at heq; omega)]
        simp

/-- Witness for C7 (amended): from a full store of 100 markers, an `OK`
planting event at a fresh position appends the new marker, the store stays
at 100, and the evicted oldest marker is recorded as detached from the
map. -/
theorem C7_marker_store_witness :
    (pushMarker (List.replicate 100 { position := samplePoint, onMap := true })
        { lat := "15.0", lng := "121.0" }).store.length ≤ 100 ∧
    (pushMarker (List.replicate 100 { position := samplePoint, onMap := true })
        { lat := "15.0", lng := "121.0" }).store
      = (List.replicate 100 { position := samplePoint, onMap := true }).tail
          ++ [{ position := { lat := "15.0", lng := "121.0" }, onMap := true }] ∧
    (pushMarker (List.replicate 100 { position := samplePoint, onMap := true })
        { lat := "15.0", lng := "121.0" }).released
      = [{ position := samplePoint, onMap := false }] := by
  have h := C7_marker_store.2.2.2
    (List.replicate 100 { position := samplePoint, onMap := true })
    { lat := "15.0", lng := "121.0" }
  refine ⟨h.1 (by simp), (h.2.2 (by simp)).1, ?_⟩
  rw [(h.2.2 (by simp)).2]
  decide

/-! ## Claim C8 -/

/-- Every keyword hit of the product-name chain yields a member of the
fixed board enumeration. -/
theorem boardFromName_mem (name : List Char) (b : String)
    (h : boardFromName name = some b) : b ∈ boardKeys := by
  unfold boardFromName at h
  repeat' split at h <;> simp_all [boardKeys]

/-- Every product-id lookup yields a member of the fixed board
enumeration. -/
theorem boardFromId_mem (pid : Nat) : boardFromId pid ∈ boardKeys := by
  unfold boardFromId
  split_ifs <;> simp [boardKeys]

/-- Claim C8: board classification tries, in order, (a) a case-insensitive
keyword scan of the product name whenever a non-empty name is supplied —
the name is lowercased and matched by substring against the board
keywords — then (b) the exact static product-id table, with `unknown` for
any id outside the table; the function is total, and its result is always
a member of the fixed board enumeration. -/
theorem C8_board_classification :
    (∀ (pid : Nat) (productName : Option String),
      detectBoardType pid productName ∈ boardKeys) ∧
    (∀ (pid : Nat) (s : String) (b : String),
      s.isEmpty = false → boardFromName (s.toList.map Char.toLower) = some b →
        detectBoardType pid (some s) = b) ∧
    (∀ (pid : Nat) (s : String),
      s.isEmpty = false → boardFromName (s.toList.map Char.toLower) = none →
        detectBoardType pid (some s) = boardFromId pid) ∧
    (∀ (pid : Nat) (s : String),
      s.isEmpty = true → detectBoardType pid (some s) = boardFromId pid) ∧
    (∀ pid : Nat, detectBoardType pid none = boardFromId pid) ∧
    (∀ pid : Nat,
      pid ≠ 0x0043 → pid ≠ 0x0036 → pid ≠ 0x8036 → pid ≠ 0x0037 →
      pid ≠ 0x8037 → pid ≠ 0x0042 → pid ≠ 0x0010 →
        boardFromId pid = "unknown") := by
  refine ⟨?_, ?_, ?_, ?_, ?_, ?_⟩
  · intro pid productName
    rcases productName with _ | s
    · simp only [detectBoardType]
      exact boardFromId_mem pid
    · simp only [detectBoardType]
      split_ifs with he
      · exact boardFromId_mem pid
      · rcases hn : boardFromName (s.toList.map Char.toLower) with _ | b <;>
          simp only [String.toList] at hn <;> simp [hn]
        · exact boardFromId_mem pid
        · exact boardFromName_mem _ b hn
  · intro pid s b he hn
    simp only [String.toList] at hn
    simp [detectBoardType, he, hn]
  · intro pid s he hn
    simp only [String.toList] at hn
    simp [detectBoardType, he, hn]
  · intro pid s he
    simp [detectBoardType, he]
  · intro pid
    simp [detectBoardType]
  · intro pid h1 h2 h3 h4 h5 h6 h7
    simp [boardFromId, h1, h2, h3, h4, h5, h6, h7]

/-- Witness for C8: a mixed-case name containing `uno` classifies by the
name scan; with no name, the id table decides; an unknown id with no name
classifies `unknown`. -/
theorem C8_board_classification_witness :
    detectBoardType 0 (some "USB Arduino UNO R3") = "arduino:avr:uno" ∧
    detectBoardType 0x0042 none = boardFromId 0x0042 ∧
    boardFromId 0x0042 = "arduino:avr:mega" ∧
    detectBoardType 0x9999 none = boardFromId 0x9999 ∧
    boardFromId 0x9999 = "unknown" :=
  ⟨C8_board_classification.2.1 0 "USB Arduino UNO R3" "arduino:avr:uno"
      (by decide) (by decide),
   C8_board_classification.2.2.2.2.1 0x0042,
   by decide,
   C8_board_classification.2.2.2.2.1 0x9999,
   C8_board_classification.2.2.2.2.2 0x9999 (by decide) (by decide) (by decide)
     (by decide) (by decide) (by decide) (by decide)⟩

/-! ## Claim C9 -/

/-- The invariant maintained by the connection lifecycle: at most one read
loop exists, and none exists unless `isReading` is set. -/
def ReaderInv (s : LoopState) : Prop :=
  s.readers ≤ 1 ∧ (s.reading = false → s.readers = 0)

/-- Every lifecycle event preserves the reader invariant: `connect` is
rejected while a port is set, `readSerialData` refuses to start while
`isReading` holds, and a finishing loop decrements the count. -/
theorem stepLink_preserves (s : LoopState) (ev : LinkEvent)
    (h : ReaderInv s) : ReaderInv (stepLink s ev) := by
  obtain ⟨h1, h2⟩ := h
  rcases ev with ok | _ | _
  · rcases s with ⟨port, reading, readers⟩
    rcases port <;> rcases reading <;> rcases ok <;>
      simp_all [stepLink, connectArduino, readStart, ReaderInv]
  · rcases s with ⟨port, reading, readers⟩
    rcases reading <;>
      simp_all [stepLink, readFinish, ReaderInv]
  · exact ⟨h1, h2⟩

/-- Every run of lifecycle events from the initial state satisfies the
reader invariant. -/
theorem runLink_inv (evs : List LinkEvent) : ReaderInv (runLink evs) := by
  induction evs using List.reverseRecOn with
  | nil => exact ⟨by simp [runLink, initialLoopState], fun _ => rfl⟩
  | append_singleton xs x ih =>
    unfold runLink at ih ⊢
    rw [List.foldl_append, List.foldl_cons, List.foldl_nil]
    exact stepLink_preserves _ x ih

/-- Claim C9: a `connect()` issued while `serialPort` is already set is
rejected — the state is returned untouched (no transport opened, no reader
started) and the caller is shown the `Already Connected` notification; and
along every reachable run of connection lifecycle events at most one read
loop is ever active, so two readers never consume the transport
concurrently. -/
theorem C9_single_reader :
    (∀ (s : LoopState) (openOk : Bool), s.port = true →
      connectArduino s openOk = (s, some "Already Connected")) ∧
    (∀ evs : List LinkEvent, (runLink evs).readers ≤ 1) := by
  constructor
  · intro s openOk hp
    simp [connectArduino, hp]
  · intro evs
    exact (runLink_inv evs).1

/-- Witness for C9: from a connected reading state a second `connect()`
changes nothing and reports `Already Connected`; a run that connects,
attempts a second connect and finishes one read never exceeds one
reader. -/
theorem C9_single_reader_witness :
    connectArduino { port := true, reading := true, readers := 1 } true
      = ({ port := true, reading := true, readers := 1 }, some "Already Connected") ∧
    (runLink [.connect true, .connect true, .readFinished]).readers ≤ 1 :=
  ⟨C9_single_reader.1 { port := true, reading := true, readers := 1 } true rfl,
   C9_single_reader.2 [.connect true, .connect true, .readFinished]⟩
